import Mathlib

/-!
# Verification of the file-writer package (buffered, size-rotated log file writer)

Shallow embedding of the write/rotate/flush engine of the repository:
`FileWriter` with its `Write`, `Open`, `Close` public operations and the
internal `openFile`, `rotateFile`, `flushBuf` helpers, together with the
`writeCounter` byte tracker and the `bufio.Writer` staging buffer.

Modelling conventions:
* Bytes are `Nat`; file contents are `List Nat`.
* The filesystem is an association list from file names to contents
  (`os.OpenFile` with `O_CREATE|O_WRONLY|O_APPEND`, `os.Rename` and
  `Stat` act on it).  `openFileFn`, `renameFileFn` and `time.Now` are
  the pluggable primitives of the source; their outcomes for one public
  call are supplied by an `Env` record (success/failure injection and
  the formatted timestamp string that `time.Now().Format` would yield).
* Go `uint` arithmetic is `Nat` reduced `% 2 ^ 64`; in particular the
  statement `fw.size += uint(fw.wc.flushedBytes) - uint(bufSize)` of
  `flushBuf` is modelled with the exact wrap-around semantics.
* The `bufio.Writer` is modelled as an unbounded byte list: the source
  creates it with the default 4096-byte capacity and every payload in
  the claims is far smaller, so `buf.Write(p)` copies `p` into the
  buffer without touching the sink and cannot fail, and the only sink
  writes happen inside `Flush`.  `Flush` performs one sink write of all
  staged bytes; the sink may accept only a prefix and then error, in
  which case `bufio` keeps the undelivered suffix staged.
* The crucial wiring detail of the source is kept: `NewFileWriter`
  builds the buffer with `bufio.NewWriter(fw.file)` and `Open` rebinds
  it with `fw.setBufWriter(fw.file)`, so the buffer writes to the file
  DIRECTLY, bypassing the `writeCounter`; only `rotateFile` rebinds the
  buffer through the counter (`fw.setBufWriter(fw.wc)`).  The field
  `bufViaCounter` records which sink the buffer is bound to.
* Not modelled (no observable effect on the claims): the mutex, the
  `mode`/`flags` fields (`Stat` always succeeds), the `done` channel,
  `time.Ticker` plumbing, and Go's `errors.Unwrap`/`fmt.Errorf`
  wrapping (errors are an enumeration of the stage that failed,
  mirroring the message templates of consts.go).
-/

/-- Go uint is 64 bits wide; all uint arithmetic is reduced modulo this. -/
def uintMod : Nat := 2 ^ 64

/-- Error taxonomy: one constructor per fixed message template of consts.go
(`failedToOpenLogFile`, `failedToRenameLogFile`, `failedToGetFileStats`,
`failedToWriteLogFile`, `failedToFlushLogBuffer`). -/
inductive Err where
  | openFailed
  | renameFailed
  | statFailed
  | writeFailed
  | flushFailed
deriving DecidableEq, Repr

/-- Outcome of the single underlying sink write performed by a buffer flush:
either every byte handed over is accepted, or only a prefix of `k` bytes is
accepted and the sink reports an error (the `(n, err)` contract of
`io.Writer`). -/
inductive WriteOutcome where
  | ok
  | fail (k : Nat)
deriving DecidableEq, Repr

/-- Behaviour of the pluggable environment (`openFileFn`, `renameFileFn`,
the sink write during a flush, and `time.Now().Format(...)`) during one
public operation. `formattedNow` is the timestamp string that
`time.Now().Format(fw.rotatePostfix)` yields during this call. -/
structure Env where
  renameOk : Bool
  openOk : Bool
  flushOutcome : WriteOutcome
  formattedNow : String
deriving DecidableEq, Repr

/-- The filesystem: an association list from file names to byte contents. -/
abbrev FSys := List (String × List Nat)

/-- Look a file up by name. -/
def fsLookup : FSys → String → Option (List Nat)
  | [], _ => none
  | (k, v) :: rest, n => if k = n then some v else fsLookup rest n

/-- Remove a file. -/
def fsErase : FSys → String → FSys
  | [], _ => []
  | (k, v) :: rest, n =>
    if k = n then fsErase rest n else (k, v) :: fsErase rest n

/-- Create or overwrite a file with the given contents. -/
def fsSet (fs : FSys) (n : String) (c : List Nat) : FSys :=
  (n, c) :: fsErase fs n

/-- Append bytes to a file (the effect of a successful `O_APPEND` write). -/
def fsAppend (fs : FSys) (n : String) (bytes : List Nat) : FSys :=
  fsSet fs n (((fsLookup fs n).getD []) ++ bytes)

/-- Backup name used by `rotateFile`: `name + "." + postfix` where the
postfix is the formatted current time. -/
def backupNameOf (name ts : String) : String := name ++ "." ++ ts

/-- The FileWriter state (file_writer.go).  `fileName`/`fileOpen` stand for
the `file` handle, `buf` for the bytes staged in the `bufio.Writer`,
`flushedBytes` for `wc.flushedBytes`, and `bufViaCounter` for whether the
buffer's sink is `fw.wc` (set by `rotateFile`) or `fw.file` directly (as
wired by `NewFileWriter` and `Open`). -/
structure FileWriter where
  fileName : String
  fileOpen : Bool
  rotatePostfix : String
  compress : Bool
  maxSize : Nat
  size : Nat
  bufViaCounter : Bool
  buf : List Nat
  flushedBytes : Nat
  maxBatchSize : Nat
  batchSize : Nat
deriving DecidableEq, Repr

/-- Default timestamp layout (consts.go names it with `time.RFC3339`). -/
def defaultFileRotateLayout : String := "2006-01-02T15:04:05Z07:00"

/-- openFile (utils.go): `openFileFn(name, fw.flags, mode)` with
`O_CREATE|O_WRONLY|O_APPEND` — the file is created empty when absent and
kept when present — then `getFileSize` (Stat, modelled as always
succeeding) sets `fw.size` to the on-disk size and the handle is stored.
The buffer wiring is NOT touched here. -/
def FileWriter.openFile (env : Env) (fw : FileWriter) (fs : FSys)
    (name : String) : FileWriter × FSys × Option Err :=
  if env.openOk then
    let fs1 := match fsLookup fs name with
      | some _ => fs
      | none => fsSet fs name []
    let sz := match fsLookup fs1 name with
      | some c => c.length
      | none => 0
    ({ fw with fileName := name, fileOpen := true, size := sz % uintMod },
     fs1, none)
  else (fw, fs, some .openFailed)

/-- flushBuf (utils.go): record `bufSize := fw.buf.Buffered()`, call
`fw.buf.Flush()` (one sink write of all staged bytes; the undelivered
suffix stays staged on error; an empty buffer returns nil without any sink
write), then `fw.size += uint(fw.wc.flushedBytes) - uint(bufSize)` in Go
uint arithmetic and reset `fw.wc.flushedBytes` to 0.  `wc.flushedBytes`
only counts the delivered bytes when the buffer is wired through the
counter (`bufViaCounter`); with the direct-to-file wiring of
`NewFileWriter`/`Open`, the counter never sees them. -/
def FileWriter.flushBuf (env : Env) (fw : FileWriter) (fs : FSys) :
    FileWriter × FSys × Option Err :=
  let bufSize := fw.buf.length
  let delivered :=
    if bufSize = 0 then 0
    else match env.flushOutcome with
      | .ok => bufSize
      | .fail k => min k bufSize
  let err : Option Err :=
    if bufSize = 0 then none
    else match env.flushOutcome with
      | .ok => none
      | .fail _ => some .flushFailed
  let fs1 :=
    if delivered = 0 then fs
    else fsAppend fs fw.fileName (fw.buf.take delivered)
  let flushedTotal :=
    fw.flushedBytes + (if fw.bufViaCounter then delivered else 0)
  ({ fw with
      buf := fw.buf.drop delivered,
      size := (fw.size + flushedTotal + (uintMod - bufSize % uintMod)) % uintMod,
      flushedBytes := 0 },
   fs1, err)

/-- rotateFile (utils.go): capture the active file name, close the handle
(best effort), rename the file to `name + "." + formattedNow` (an absent
source or an injected failure yields the rename error and leaves the
filesystem unchanged), reopen a fresh file at the original name, set
`fw.size = uint(fw.buf.Buffered())`, and rebind the buffer through the
write counter (`fw.wc.wr = f; fw.setBufWriter(fw.wc)`).  The staged buffer
bytes are not touched. -/
def FileWriter.rotateFile (env : Env) (fw : FileWriter) (fs : FSys) :
    FileWriter × FSys × Option Err :=
  let name := fw.fileName
  let fw0 := { fw with fileOpen := false }
  match fsLookup fs name with
  | none => (fw0, fs, some .renameFailed)
  | some content =>
    if env.renameOk then
      let fs1 := fsSet (fsErase fs name) (backupNameOf name env.formattedNow) content
      if env.openOk then
        ({ fw0 with
            fileOpen := true,
            size := fw.buf.length % uintMod,
            bufViaCounter := true },
         fsSet fs1 name [], none)
      else (fw0, fs1, some .openFailed)
    else (fw0, fs, some .renameFailed)

/-- Staging tail of Write (file_writer.go): `n, err := fw.buf.Write(p)`
(all bytes are copied into the buffer and no sink write happens, because
the payload fits the buffer capacity, so the buffer-level error branch is
unreachable), `fw.size += uint(n)`, `fw.batchSize++`, and when
`fw.batchSize >= fw.maxBatchSize` reset it to 0 and flush; the flush error
is returned alongside the accepted byte count. -/
def FileWriter.writeStage (env : Env) (fw : FileWriter) (fs : FSys)
    (p : List Nat) : FileWriter × FSys × Nat × Option Err :=
  let n := p.length
  let fw1 := { fw with
    buf := fw.buf ++ p,
    size := (fw.size + n) % uintMod }
  let fw2 := { fw1 with batchSize := fw1.batchSize + 1 }
  if fw2.maxBatchSize ≤ fw2.batchSize then
    let fw3 := { fw2 with batchSize := 0 }
    let r := FileWriter.flushBuf env fw3 fs
    (r.1, r.2.1, n, r.2.2)
  else (fw2, fs, n, none)

/-- Write (file_writer.go): compute `size := fw.size + uint(len(p))`; when
`size >= fw.maxSize` reset `batchSize` to 0, rotate, then flush, returning
`(0, err)` if either fails; afterwards stage the payload and do the batch
bookkeeping of `writeStage`. -/
def FileWriter.Write (env : Env) (fw : FileWriter) (fs : FSys)
    (p : List Nat) : FileWriter × FSys × Nat × Option Err :=
  let pSize := p.length
  let size := (fw.size + pSize) % uintMod
  if fw.maxSize ≤ size then
    let fw1 := { fw with batchSize := 0 }
    match FileWriter.rotateFile env fw1 fs with
    | (fw2, fs2, some e) => (fw2, fs2, 0, some e)
    | (fw2, fs2, none) =>
      match FileWriter.flushBuf env fw2 fs2 with
      | (fw3, fs3, some e) => (fw3, fs3, 0, some e)
      | (fw3, fs3, none) => FileWriter.writeStage env fw3 fs3 p
  else FileWriter.writeStage env fw fs p

/-- Open (file_writer.go): `fw.openFile(file, m)` and, on success,
`fw.setBufWriter(fw.file)` — the buffer is rebound to the new file
DIRECTLY, bypassing the write counter. -/
def FileWriter.Open (env : Env) (fw : FileWriter) (fs : FSys)
    (name : String) : FileWriter × FSys × Option Err :=
  match FileWriter.openFile env fw fs name with
  | (fw1, fs1, none) => ({ fw1 with bufViaCounter := false }, fs1, none)
  | r => r

/-- Close (file_writer.go): stop the ticker and close the done channel
(no observable effect in the model), compute
`size := fw.size + uint(fw.buf.Buffered())`, rotate when
`size > fw.maxSize`, flush only when no rotation error occurred (the flush
error is discarded), return the rotation error, and close the file handle
unconditionally in the deferred cleanup. -/
def FileWriter.Close (env : Env) (fw : FileWriter) (fs : FSys) :
    FileWriter × FSys × Option Err :=
  let bufSize := fw.buf.length
  let size := (fw.size + bufSize) % uintMod
  let r1 :=
    if fw.maxSize < size then FileWriter.rotateFile env fw fs
    else (fw, fs, (none : Option Err))
  let r2 :=
    match r1.2.2 with
    | none =>
      let f := FileWriter.flushBuf env r1.1 r1.2.1
      (f.1, f.2.1)
    | some _ => (r1.1, r1.2.1)
  ({ r2.1 with fileOpen := false }, r2.2, r1.2.2)

/-- The WithFileWriterCompress option (options.go): sets the `compress`
flag; no other code in the package ever reads it. -/
def FileWriter.WithFileWriterCompress (b : Bool) :
    FileWriter → FileWriter :=
  fun fw => { fw with compress := b }

/-- The WithFileWriterMaxBatchSize option (options.go); the Go parameter
is an int, modelled on its nonnegative range. -/
def FileWriter.WithFileWriterMaxBatchSize (n : Nat) :
    FileWriter → FileWriter :=
  fun fw => { fw with maxBatchSize := n }

/-- The FileWriter record as populated by the struct literal at the top of
NewFileWriter (file_writer.go) before options run: default rotate layout,
compression on, 4 MB size limit, batch threshold 32; no file attached yet,
empty buffer wired directly (the wiring is fixed after openFile). -/
def defaultFileWriter : FileWriter where
  fileName := ""
  fileOpen := false
  rotatePostfix := defaultFileRotateLayout
  compress := true
  maxSize := 4 * 1024 * 1024
  size := 0
  bufViaCounter := false
  buf := []
  flushedBytes := 0
  maxBatchSize := 32
  batchSize := 0

/-- NewFileWriter (file_writer.go): build the default record, apply the
options, `openFile` the named file (propagating its failure), then attach
`fw.wc = writeCounter{wr: fw.file}` with a zero counter and
`fw.buf = bufio.NewWriter(fw.file)` — an empty buffer bound to the file
DIRECTLY, not through the counter — and reset `batchSize`. -/
def FileWriter.NewFileWriter (env : Env) (fs : FSys) (file : String)
    (opts : List (FileWriter → FileWriter)) :
    Except Err (FileWriter × FSys) :=
  let fw := opts.foldl (fun a o => o a) defaultFileWriter
  match FileWriter.openFile env fw fs file with
  | (_, _, some e) => .error e
  | (fw1, fs1, none) =>
    .ok ({ fw1 with
            bufViaCounter := false,
            buf := [],
            flushedBytes := 0,
            batchSize := 0 },
         fs1)

/-- Reaction of a FileWriter to one tick of its `flushTicker`.  Modelled
from the source by absence: `NewFileWriter` starts no goroutine, no code
in the package ever receives from `flushTicker.C`, reads `done`, or calls
`errorHandler` (the README TODO item "Add flushing of the log buffer
using a time.Ticker" is unchecked), so a tick leaves the writer and the
filesystem unchanged and delivers no error to the handler.  The third
component is the list of errors handed to `errorHandler` during the
tick. -/
def FileWriter.tickStep (fw : FileWriter) (fs : FSys) :
    FileWriter × FSys × List Err :=
  (fw, fs, [])

/-- One public operation together with the environment behaviour during
its execution. -/
inductive Op where
  | writeOp (env : Env) (p : List Nat)
  | openOp (env : Env) (name : String)
  | closeOp (env : Env)

/-- Run one public operation; the observable output is the pair of the
accepted byte count (0 for Open/Close) and the returned error. -/
def runOp (op : Op) (fw : FileWriter) (fs : FSys) :
    FileWriter × FSys × (Nat × Option Err) :=
  match op with
  | .writeOp env p =>
    let r := FileWriter.Write env fw fs p
    (r.1, r.2.1, (r.2.2.1, r.2.2.2))
  | .openOp env name =>
    let r := FileWriter.Open env fw fs name
    (r.1, r.2.1, (0, r.2.2))
  | .closeOp env =>
    let r := FileWriter.Close env fw fs
    (r.1, r.2.1, (0, r.2.2))

/-- Run a sequence of public operations, collecting the outputs. -/
def runOps : List Op → FileWriter → FSys →
    FileWriter × FSys × List (Nat × Option Err)
  | [], fw, fs => (fw, fs, [])
  | op :: rest, fw, fs =>
    let r := runOp op fw fs
    let rr := runOps rest r.1 r.2.1
    (rr.1, rr.2.1, r.2.2 :: rr.2.2)

/-- Run a sequence of Write calls with a fixed environment behaviour,
collecting the `(accepted, error)` results. -/
def runWrites (env : Env) : List (List Nat) → FileWriter → FSys →
    FileWriter × FSys × List (Nat × Option Err)
  | [], fw, fs => (fw, fs, [])
  | p :: rest, fw, fs =>
    let r := FileWriter.Write env fw fs p
    let rr := runWrites env rest r.1 r.2.1
    (rr.1, rr.2.1, (r.2.2.1, r.2.2.2) :: rr.2.2)

/-- Total byte length of a list of payloads. -/
def totalLen (ps : List (List Nat)) : Nat := (ps.map List.length).sum

/-- Copy of a FileWriter with the compress flag replaced. -/
def setCompress (fw : FileWriter) (b : Bool) : FileWriter :=
  { fw with compress := b }

/-! ## Concrete scenario data used by the claim theorems -/

/-- Environment where every primitive succeeds; formatted time stamp "t1". -/
def envOkT1 : Env :=
  { renameOk := true, openOk := true, flushOutcome := .ok, formattedNow := "t1" }

/-- Environment where every primitive succeeds; formatted time stamp "t2". -/
def envOkT2 : Env :=
  { renameOk := true, openOk := true, flushOutcome := .ok, formattedNow := "t2" }

/-- The 14-byte payload of the spec scenario, the bytes of
"Hello, world!" followed by a newline. -/
def p14 : List Nat :=
  [72, 101, 108, 108, 111, 44, 32, 119, 111, 114, 108, 100, 33, 10]

/-- Writer produced by NewFileWriter on an empty filesystem for file
"app.log" with WithFileWriterMaxBatchSize 1 (C1 scenario). -/
def fwC1 : FileWriter :=
  { defaultFileWriter with
      fileName := "app.log", fileOpen := true, maxBatchSize := 1 }

/-- The C1 run: one 5-byte Write on the fresh writer. -/
def c1Run : FileWriter × FSys × Nat × Option Err :=
  FileWriter.Write envOkT1 fwC1 [( "app.log", [])] [9, 9, 9, 9, 9]

/-- Writer of the spec scenario for C2: maxSize 20 bytes over the
initially empty file "test.log", default batching. -/
def fwC2 : FileWriter :=
  { defaultFileWriter with
      fileName := "test.log", fileOpen := true, maxSize := 20 }

/-- Initial filesystem of the C2 scenario. -/
def fsC2 : FSys := [( "test.log", [])]

/-- The C2 scenario after the two Write calls. -/
def c2AfterTwoWrites : FileWriter × FSys × List (Nat × Option Err) :=
  runOps [ .writeOp envOkT1 p14, .writeOp envOkT1 p14 ] fwC2 fsC2

/-- The C2 scenario run to completion: two Write calls and a Close, the
Close rotating at formatted time "t2". -/
def c2FullRun : FileWriter × FSys × List (Nat × Option Err) :=
  runOps [ .writeOp envOkT1 p14, .writeOp envOkT1 p14, .closeOp envOkT2 ]
    fwC2 fsC2

/-- C3 counterexample state: active file "f" holds 10 bytes on disk, 8
bytes are staged, size = 18 (the invariant value), maxSize = 20. -/
def fwC3 : FileWriter :=
  { defaultFileWriter with
      fileName := "f", fileOpen := true, maxSize := 20, size := 18,
      bufViaCounter := true, buf := [1, 2, 3, 4, 5, 6, 7, 8] }

/-- Filesystem of the C3 counterexample. -/
def fsC3 : FSys := [( "f", [0, 0, 0, 0, 0, 0, 0, 0, 0, 0])]

/-- C5 counterexample environment: rename and open succeed, but the sink
write during the flush accepts only 1 byte and then errors. -/
def envC5 : Env :=
  { renameOk := true, openOk := true, flushOutcome := .fail 1,
    formattedNow := "t1" }

/-- C5 counterexample state: 2 staged bytes, size 2, maxSize 3, so a
1-byte Write triggers rotation and the post-rotation flush. -/
def fwC5 : FileWriter :=
  { defaultFileWriter with
      fileName := "c5.log", fileOpen := true, maxSize := 3, size := 2,
      bufViaCounter := true, buf := [1, 2] }

/-- The C5 counterexample run. -/
def c5Run : FileWriter × FSys × Nat × Option Err :=
  FileWriter.Write envC5 fwC5 [( "c5.log", [])] [7]

/-- Writer produced by NewFileWriter on an empty filesystem for file
"app6.log" with WithFileWriterMaxBatchSize 2 (C6 scenario). -/
def fwC6 : FileWriter :=
  { defaultFileWriter with
      fileName := "app6.log", fileOpen := true, maxBatchSize := 2 }

/-- Initial filesystem of the C6 scenario. -/
def fsC6 : FSys := [( "app6.log", [])]

/-- The C6 run: two successful Write calls (3 bytes, then 2 bytes), the
second one triggering the batch flush. -/
def c6Run : FileWriter × FSys × List (Nat × Option Err) :=
  runWrites envOkT1 [[1, 2, 3], [4, 5]] fwC6 fsC6

/-- C9 state: a writer with one staged byte, used to observe that a
ticker tick flushes nothing. -/
def fwC9 : FileWriter :=
  { defaultFileWriter with
      fileName := "tick.log", fileOpen := true, size := 1, buf := [9] }

/-- Filesystem of the C9 scenario. -/
def fsC9 : FSys := [( "tick.log", [])]

/-- Environment of the C3 amended-claim witness. -/
def envW3 : Env :=
  { renameOk := true, openOk := true, flushOutcome := .ok, formattedNow := "w3" }

/-- Writer of the C3 amended-claim witness: on-disk 3, staged 1, size 4,
maxSize 5, so Close does not rotate (4 + 1 = 5 is not above 5). -/
def fwW3 : FileWriter :=
  { defaultFileWriter with
      fileName := "w3.log", fileOpen := true, maxSize := 5, size := 4,
      bufViaCounter := true, buf := [7] }

/-- Filesystem of the C3 amended-claim witness. -/
def fsW3 : FSys := [( "w3.log", [7, 7, 7])]

/-- Environment of the C4 witness. -/
def envW4 : Env :=
  { renameOk := true, openOk := true, flushOutcome := .ok, formattedNow := "w4" }

/-- Writer of the C4 witness: two staged bytes over a 2-byte file. -/
def fwW4 : FileWriter :=
  { defaultFileWriter with
      fileName := "w4.log", fileOpen := true, size := 4, buf := [3, 4] }

/-- Filesystem of the C4 witness. -/
def fsW4 : FSys := [( "w4.log", [5, 6])]

/-- Environment of the C5 amended-claim witness: rename and open succeed
but the flush sink write accepts 0 bytes and errors. -/
def envW5 : Env :=
  { renameOk := true, openOk := true, flushOutcome := .fail 0,
    formattedNow := "w5" }

/-- Writer of the C5 amended-claim witness. -/
def fwW5 : FileWriter :=
  { defaultFileWriter with
      fileName := "w5.log", fileOpen := true, maxSize := 4, size := 3,
      bufViaCounter := true, buf := [8, 9] }

/-- Filesystem of the C5 amended-claim witness. -/
def fsW5 : FSys := [( "w5.log", [])]

/-- Environment whose flush sink write accepts 0 bytes and errors
(otherwise successful); used by the C7 witness. -/
def envFail0 : Env :=
  { renameOk := true, openOk := true, flushOutcome := .fail 0,
    formattedNow := "t1" }

/-- Writer of the C7 witness: batch threshold 2, large maxSize. -/
def fwW7 : FileWriter :=
  { defaultFileWriter with
      fileName := "w7.log", fileOpen := true, maxSize := 100,
      maxBatchSize := 2, bufViaCounter := true }

/-- Filesystem of the C7 witness. -/
def fsW7 : FSys := [( "w7.log", [])]

/-! ## Helper lemmas about the filesystem model -/

/-- Erasing a name does not change the lookup of another name. -/
theorem fsLookup_fsErase_ne (fs : FSys) (n m : String) (h : m ≠ n) :
    fsLookup (fsErase fs n) m = fsLookup fs m := by
  induction fs with
  | nil => rfl
  | cons kv rest ih =>
    obtain ⟨k, v⟩ := kv
    by_cases hk : k = n
    · have hnm : ¬ n = m := fun hh => h hh.symm
      simp [fsErase, fsLookup, hk, hnm, ih]
    · simp [fsErase, fsLookup, hk, ih]

/-- Looking up the name just written. -/
theorem fsLookup_fsSet_self (fs : FSys) (n : String) (c : List Nat) :
    fsLookup (fsSet fs n c) n = some c := by
  simp [fsSet, fsLookup]

/-- Writing one name does not change the lookup of another name. -/
theorem fsLookup_fsSet_ne (fs : FSys) (n m : String) (c : List Nat)
    (h : m ≠ n) :
    fsLookup (fsSet fs n c) m = fsLookup fs m := by
  have hnm : ¬ n = m := fun hh => h hh.symm
  simp [fsSet, fsLookup, hnm, fsLookup_fsErase_ne fs n m h]

/-- Appending bytes to one file does not change the lookup of another. -/
theorem fsLookup_fsAppend_ne (fs : FSys) (n m : String) (bs : List Nat)
    (h : m ≠ n) :
    fsLookup (fsAppend fs n bs) m = fsLookup fs m := by
  simp [fsAppend, fsLookup_fsSet_ne fs n m _ h]

/-- The backup name is strictly longer than the original name, hence
different from it. -/
theorem backupNameOf_ne (name ts : String) : backupNameOf name ts ≠ name := by
  intro h
  have hlen := congrArg String.length h
  have hdot : ".".length = 1 := rfl
  simp only [backupNameOf, String.length_append] at hlen
  omega

/-! ## Helper lemmas about the operations -/

/-- Successful rotation, explicitly: the state it returns and the two
filesystem writes it performs (backup holds the old content, the original
name holds a fresh empty file). -/
theorem rotateFile_success (env : Env) (fw : FileWriter) (fs : FSys)
    (c : List Nat) (hfile : fsLookup fs fw.fileName = some c)
    (hren : env.renameOk = true) (hopen : env.openOk = true) :
    FileWriter.rotateFile env fw fs =
      ({ fw with
          fileOpen := true,
          size := fw.buf.length % uintMod,
          bufViaCounter := true },
       fsSet (fsSet (fsErase fs fw.fileName)
         (backupNameOf fw.fileName env.formattedNow) c) fw.fileName [],
       none) := by
  simp [FileWriter.rotateFile, hfile, hren, hopen]

/-- Rotation with a failing rename: the handle is closed, nothing else
changes, and the rename error is reported. -/
theorem rotateFile_renameFail (env : Env) (fw : FileWriter) (fs : FSys)
    (c : List Nat) (hfile : fsLookup fs fw.fileName = some c)
    (hren : env.renameOk = false) :
    FileWriter.rotateFile env fw fs =
      ({ fw with fileOpen := false }, fs, some .renameFailed) := by
  simp [FileWriter.rotateFile, hfile, hren]

/-- rotateFile never reports a flush error. -/
theorem rotateFile_no_flush_error (env : Env) (fw : FileWriter) (fs : FSys) :
    (FileWriter.rotateFile env fw fs).2.2 ≠ some .flushFailed := by
  unfold FileWriter.rotateFile
  rcases h : fsLookup fs fw.fileName with _ | c
  · simp [h]
  · by_cases hren : env.renameOk
    · by_cases hopen : env.openOk <;> simp [h, hren, hopen]
    · simp [h, hren]

/-- A flush whose sink write succeeds empties the buffer into the active
file, reports no error, and leaves other files untouched. -/
theorem flushBuf_ok (env : Env) (fw : FileWriter) (fs : FSys)
    (hok : env.flushOutcome = .ok) :
    FileWriter.flushBuf env fw fs =
      ({ fw with
          buf := [],
          size := (fw.size
            + (fw.flushedBytes + (if fw.bufViaCounter then fw.buf.length else 0))
            + (uintMod - fw.buf.length % uintMod)) % uintMod,
          flushedBytes := 0 },
       if fw.buf.length = 0 then fs else fsAppend fs fw.fileName fw.buf,
       none) := by
  unfold FileWriter.flushBuf
  rw [hok]
  by_cases hb : fw.buf.length = 0
  · have hnil : fw.buf = [] := List.length_eq_zero.mp hb
    simp [hb, hnil]
  · simp [hb, List.take_length, List.drop_length]

/-- A flush whose sink write fails after `k` bytes reports the flush
error, drops exactly the delivered prefix from the buffer, and leaves the
batch counter and other files untouched. -/
theorem flushBuf_fail (env : Env) (fw : FileWriter) (fs : FSys) (k : Nat)
    (hf : env.flushOutcome = .fail k) (hb : fw.buf ≠ []) :
    (FileWriter.flushBuf env fw fs).2.2 = some .flushFailed ∧
    (FileWriter.flushBuf env fw fs).1.buf
      = fw.buf.drop (min k fw.buf.length) ∧
    (FileWriter.flushBuf env fw fs).1.batchSize = fw.batchSize := by
  have hlen : ¬ fw.buf.length = 0 :=
    fun h0 => hb (List.length_eq_zero.mp h0)
  unfold FileWriter.flushBuf
  rw [hf]
  simp [hlen]

/-- Flushing never touches files other than the active one. -/
theorem flushBuf_fsLookup_ne (env : Env) (fw : FileWriter) (fs : FSys)
    (m : String) (h : m ≠ fw.fileName) :
    fsLookup (FileWriter.flushBuf env fw fs).2.1 m = fsLookup fs m := by
  unfold FileWriter.flushBuf
  by_cases hb : fw.buf.length = 0
  · simp [hb]
  · rcases ho : env.flushOutcome with _ | k
    · simp [hb, fsLookup_fsAppend_ne fs fw.fileName m _ h]
    · by_cases hd : min k fw.buf.length = 0
      · simp [hb, hd]
      · simp [hb, hd, fsLookup_fsAppend_ne fs fw.fileName m _ h]

/-! ## Claim theorems -/

/-- C1: REFUTED ON THE CODE (code bug).  The invariant "size = bytes
durably written to the active file + bytes currently staged" breaks after
the very first batch-triggered flush: on a writer fresh from
NewFileWriter (buffer wired directly to the file, bypassing the write
counter) with WithFileWriterMaxBatchSize 1, a single successful 5-byte
Write leaves the 5 bytes durably in "app.log" with an empty buffer, yet
the tracked size is 0 — flushBuf computed size += flushedBytes(0) -
bufSize(5) in uint arithmetic.  The invariant value would be 5. -/
theorem C1_size_invariant_violated_after_flush :
    FileWriter.NewFileWriter envOkT1 [] "app.log"
        [ FileWriter.WithFileWriterMaxBatchSize 1]
      = .ok (fwC1, [( "app.log", [])]) ∧
    c1Run.2.2.2 = none ∧
    c1Run.2.2.1 = 5 ∧
    fsLookup c1Run.2.1 "app.log" = some [9, 9, 9, 9, 9] ∧
    c1Run.1.buf = [] ∧
    c1Run.1.size = 0 :=
  ⟨rfl, rfl, rfl, rfl, rfl, rfl⟩

/-- C2: COUNTEREXAMPLE.  In the spec scenario (maxSize 20, empty file,
two 14-byte writes, default batching) the rotation triggered by the
second Write does happen, but the backup it creates is EMPTY: the first
payload was still staged in the buffer and nothing had been flushed to
the old file, so the renamed file contains no bytes, not the first 14. -/
theorem C2_backup_of_first_rotation_is_empty :
    c2AfterTwoWrites.2.2 = [(14, none), (14, none)] ∧
    fsLookup c2AfterTwoWrites.2.1 (backupNameOf "test.log" "t1") = some [] ∧
    some ([] : List Nat) ≠ some p14 :=
  ⟨rfl, rfl, by decide⟩

/-- C2 amended: the rotation before the second staging renames a
still-empty file (empty backup at time "t1"); the flush right after that
rotation writes the first 14 bytes into the new active file; Close then
rotates again (size 28 + 14 buffered > 20), retiring the first payload
into a second backup at time "t2", flushes the second payload into the
final active file, and closes the handle.  Afterwards the "t2" backup
holds the first 14-byte payload and "test.log" holds the second. -/
theorem C2_amended_two_writes_then_close :
    fsLookup c2FullRun.2.1 (backupNameOf "test.log" "t1") = some [] ∧
    fsLookup c2FullRun.2.1 (backupNameOf "test.log" "t2") = some p14 ∧
    fsLookup c2FullRun.2.1 "test.log" = some p14 ∧
    c2FullRun.2.2 = [(14, none), (14, none), (0, none)] ∧
    c2FullRun.1.fileOpen = false :=
  ⟨rfl, rfl, rfl, rfl, rfl⟩

/-- C3: COUNTEREXAMPLE.  A state whose on-disk size (10) plus buffered
bytes (8) is 18 ≤ maxSize (20) — and whose size field (18) is exactly the
invariant value — still rotates on Close, because Close compares
fw.size + buffered = 26 (counting the buffered bytes twice) against
maxSize.  The backup "f.t1" holding the old 10 bytes proves the rotation
happened. -/
theorem C3_close_rotates_below_threshold :
    ((fsLookup fsC3 "f").getD []).length + fwC3.buf.length ≤ fwC3.maxSize ∧
    fwC3.size = ((fsLookup fsC3 "f").getD []).length + fwC3.buf.length ∧
    fsLookup (FileWriter.Close envOkT1 fwC3 fsC3).2.1 (backupNameOf "f" "t1")
      = some [0, 0, 0, 0, 0, 0, 0, 0, 0, 0] :=
  ⟨by decide, by decide, rfl⟩

/-- C5: COUNTEREXAMPLE.  A Write that triggers rotation and whose
post-rotation flush fails after delivering 1 of the 2 staged bytes
returns (0, flush error) as claimed, but the buffer content is NOT
unchanged: the delivered byte left the buffer ([1, 2] became [2]). -/
theorem C5_failed_flush_drains_buffer :
    c5Run.2.2.1 = 0 ∧
    c5Run.2.2.2 = some .flushFailed ∧
    fwC5.buf = [1, 2] ∧
    c5Run.1.buf = [2] :=
  ⟨rfl, rfl, rfl, rfl⟩

/-- C6: REFUTED ON THE CODE (code bug).  Starting from a fresh writer on
the empty file "app6.log" with WithFileWriterMaxBatchSize 2, the two
successful writes (3 bytes, then 2) never approach maxSize (4 MB) and no
rotation occurs — the final filesystem holds only "app6.log" with all 5
bytes — yet the tracked size is 0, not the accepted sum 3 + 2 = 5: the
batch flush on the second write subtracted the 5 staged bytes without
crediting the flushed ones, because the buffer bypasses the write counter
until the first rotation. -/
theorem C6_tracked_size_loses_flushed_bytes :
    FileWriter.NewFileWriter envOkT1 [] "app6.log"
        [ FileWriter.WithFileWriterMaxBatchSize 2]
      = .ok (fwC6, fsC6) ∧
    c6Run.2.2 = [(3, none), (2, none)] ∧
    c6Run.2.1 = [( "app6.log", [1, 2, 3, 4, 5])] ∧
    c6Run.1.size = 0 ∧
    c6Run.1.size ≠ 3 + 2 :=
  ⟨rfl, rfl, rfl, rfl, by decide⟩

/-- C9: REFUTED ON THE CODE (code bug).  The source installs the ticker,
the done channel and the errorHandler, but no goroutine consumes the
ticks, so a ticker tick flushes nothing and never invokes the error
handler: on a writer with a staged byte, the tick step leaves the writer
and the filesystem unchanged and delivers no error, where the claim
requires the staged bytes to be flushed on every tick. -/
theorem C9_tick_flushes_nothing :
    (FileWriter.tickStep fwC9 fsC9).1 = fwC9 ∧
    (FileWriter.tickStep fwC9 fsC9).2.1 = fsC9 ∧
    (FileWriter.tickStep fwC9 fsC9).2.2 = [] ∧
    fwC9.buf ≠ [] :=
  ⟨rfl, rfl, rfl, by decide⟩

/-- Write when the prospective size reaches the limit: the rotation /
flush / staging cascade. -/
theorem Write_over_threshold (env : Env) (fw : FileWriter) (fs : FSys)
    (p : List Nat) (h : fw.maxSize ≤ (fw.size + p.length) % uintMod) :
    FileWriter.Write env fw fs p =
      (match FileWriter.rotateFile env { fw with batchSize := 0 } fs with
       | (fw2, fs2, some e) => (fw2, fs2, 0, some e)
       | (fw2, fs2, none) =>
         match FileWriter.flushBuf env fw2 fs2 with
         | (fw3, fs3, some e) => (fw3, fs3, 0, some e)
         | (fw3, fs3, none) => FileWriter.writeStage env fw3 fs3 p) := by
  unfold FileWriter.Write
  simp [h]

/-- Write strictly below the limit is just the staging tail. -/
theorem Write_under_threshold (env : Env) (fw : FileWriter) (fs : FSys)
    (p : List Nat) (h : ¬ fw.maxSize ≤ (fw.size + p.length) % uintMod) :
    FileWriter.Write env fw fs p = FileWriter.writeStage env fw fs p := by
  unfold FileWriter.Write
  simp [h]

/-- Close in the rotating case with a successful rotation. -/
theorem Close_rotating (env : Env) (fw : FileWriter) (fs : FSys)
    (hgt : fw.maxSize < (fw.size + fw.buf.length) % uintMod)
    (fwR : FileWriter) (fsR : FSys)
    (hrot : FileWriter.rotateFile env fw fs = (fwR, fsR, none)) :
    FileWriter.Close env fw fs =
      ({ (FileWriter.flushBuf env fwR fsR).1 with fileOpen := false },
       (FileWriter.flushBuf env fwR fsR).2.1, none) := by
  unfold FileWriter.Close
  simp [hgt, hrot]

/-- Close in the non-rotating case. -/
theorem Close_not_rotating (env : Env) (fw : FileWriter) (fs : FSys)
    (hle : ¬ fw.maxSize < (fw.size + fw.buf.length) % uintMod) :
    FileWriter.Close env fw fs =
      ({ (FileWriter.flushBuf env fw fs).1 with fileOpen := false },
       (FileWriter.flushBuf env fw fs).2.1, none) := by
  unfold FileWriter.Close
  simp [hle]

/-- Total length distributes over cons. -/
theorem totalLen_cons (p : List Nat) (ps : List (List Nat)) :
    totalLen (p :: ps) = p.length + totalLen ps := by
  simp [totalLen]

/-- Running a concatenation of write lists is running them in sequence. -/
theorem runWrites_append (env : Env) (as bs : List (List Nat))
    (fw : FileWriter) (fs : FSys) :
    runWrites env (as ++ bs) fw fs =
      ((runWrites env bs (runWrites env as fw fs).1
          (runWrites env as fw fs).2.1).1,
       (runWrites env bs (runWrites env as fw fs).1
          (runWrites env as fw fs).2.1).2.1,
       (runWrites env as fw fs).2.2
         ++ (runWrites env bs (runWrites env as fw fs).1
              (runWrites env as fw fs).2.1).2.2) := by
  induction as generalizing fw fs with
  | nil => simp [runWrites]
  | cons p rest ih =>
    simp only [List.cons_append, runWrites, List.append_eq]
    rw [ih]

/-- A run of writes that stays below both the size limit and the batch
threshold only stages: every payload is accepted with no error, nothing
is flushed or rotated, and the buffer, size and batch counter advance by
exactly the staged amounts. -/
theorem runWrites_small (env : Env) (ps : List (List Nat))
    (fw : FileWriter) (fs : FSys)
    (hsize : fw.size + totalLen ps < fw.maxSize)
    (hmax : fw.maxSize < uintMod)
    (hbatch : fw.batchSize + ps.length < fw.maxBatchSize) :
    runWrites env ps fw fs =
      ({ fw with
          buf := fw.buf ++ ps.flatten,
          size := fw.size + totalLen ps,
          batchSize := fw.batchSize + ps.length },
       fs, ps.map fun p => (p.length, none)) := by
  induction ps generalizing fw fs with
  | nil => simp [runWrites, totalLen]
  | cons p rest ih =>
    have hlep : fw.size + p.length < uintMod := by
      rw [totalLen_cons] at hsize
      omega
    have hmodp : (fw.size + p.length) % uintMod = fw.size + p.length :=
      Nat.mod_eq_of_lt hlep
    have hnorot : ¬ fw.maxSize ≤ (fw.size + p.length) % uintMod := by
      rw [hmodp]
      rw [totalLen_cons] at hsize
      omega
    have hnofl : ¬ fw.maxBatchSize ≤ fw.batchSize + 1 := by
      simp only [List.length_cons] at hbatch
      omega
    have h1 : fw.size + p.length + totalLen rest < fw.maxSize := by
      rw [totalLen_cons] at hsize
      omega
    have h2 : fw.batchSize + 1 + rest.length < fw.maxBatchSize := by
      simp only [List.length_cons] at hbatch
      omega
    simp only [runWrites, Write_under_threshold env fw fs p hnorot,
      FileWriter.writeStage, hnofl, if_false, hmodp]
    rw [ih { fw with
          buf := fw.buf ++ p,
          size := fw.size + p.length,
          batchSize := fw.batchSize + 1 } fs h1 hmax h2]
    simp [List.flatten_cons, List.append_assoc, totalLen_cons,
      List.length_cons, Nat.add_assoc]
    omega

/-! ## Compress-flag non-interference lemmas: no operation reads or
writes the compress field, so every operation commutes with replacing
it. -/

/-- flushBuf commutes with replacing the compress flag. -/
theorem flushBuf_setCompress (env : Env) (fw : FileWriter) (fs : FSys)
    (b : Bool) :
    FileWriter.flushBuf env (setCompress fw b) fs =
      (setCompress (FileWriter.flushBuf env fw fs).1 b,
       (FileWriter.flushBuf env fw fs).2.1,
       (FileWriter.flushBuf env fw fs).2.2) := by
  unfold FileWriter.flushBuf setCompress
  rcases ho : env.flushOutcome with _ | k <;>
    by_cases hb : fw.buf.length = 0 <;> simp [ho, hb]

/-- rotateFile commutes with replacing the compress flag. -/
theorem rotateFile_setCompress (env : Env) (fw : FileWriter) (fs : FSys)
    (b : Bool) :
    FileWriter.rotateFile env (setCompress fw b) fs =
      (setCompress (FileWriter.rotateFile env fw fs).1 b,
       (FileWriter.rotateFile env fw fs).2.1,
       (FileWriter.rotateFile env fw fs).2.2) := by
  unfold FileWriter.rotateFile setCompress
  rcases hl : fsLookup fs fw.fileName with _ | c
  · simp [hl]
  · by_cases hren : env.renameOk
    · by_cases hopen : env.openOk <;> simp [hl, hren, hopen]
    · simp [hl, hren]

/-- writeStage commutes with replacing the compress flag. -/
theorem writeStage_setCompress (env : Env) (fw : FileWriter) (fs : FSys)
    (p : List Nat) (b : Bool) :
    FileWriter.writeStage env (setCompress fw b) fs p =
      (setCompress (FileWriter.writeStage env fw fs p).1 b,
       (FileWriter.writeStage env fw fs p).2.1,
       (FileWriter.writeStage env fw fs p).2.2.1,
       (FileWriter.writeStage env fw fs p).2.2.2) := by
  unfold FileWriter.writeStage
  by_cases h : fw.maxBatchSize ≤ fw.batchSize + 1
  · simp only [setCompress, h, if_true]
    rw [show ({ fw with
          compress := b,
          buf := fw.buf ++ p,
          size := (fw.size + p.length) % uintMod,
          batchSize := 0 } : FileWriter)
        = setCompress { fw with
            buf := fw.buf ++ p,
            size := (fw.size + p.length) % uintMod,
            batchSize := 0 } b from rfl]
    rw [flushBuf_setCompress]
    rfl
  · simp [setCompress, h]

/-- Write commutes with replacing the compress flag. -/
theorem Write_setCompress (env : Env) (fw : FileWriter) (fs : FSys)
    (p : List Nat) (b : Bool) :
    FileWriter.Write env (setCompress fw b) fs p =
      (setCompress (FileWriter.Write env fw fs p).1 b,
       (FileWriter.Write env fw fs p).2.1,
       (FileWriter.Write env fw fs p).2.2.1,
       (FileWriter.Write env fw fs p).2.2.2) := by
  by_cases h : fw.maxSize ≤ (fw.size + p.length) % uintMod
  · rw [Write_over_threshold env (setCompress fw b) fs p h,
      Write_over_threshold env fw fs p h]
    rw [show ({ setCompress fw b with batchSize := 0 } : FileWriter)
        = setCompress { fw with batchSize := 0 } b from rfl]
    rw [rotateFile_setCompress]
    rcases hR : FileWriter.rotateFile env { fw with batchSize := 0 } fs
      with ⟨fwR, fsR, eR⟩
    dsimp only
    cases eR with
    | some e => simp
    | none =>
      dsimp only
      rw [flushBuf_setCompress]
      rcases hF : FileWriter.flushBuf env fwR fsR with ⟨fwF, fsF, eF⟩
      dsimp only
      cases eF with
      | some e => simp
      | none =>
        dsimp only
        rw [writeStage_setCompress]
  · rw [Write_under_threshold env (setCompress fw b) fs p h,
      Write_under_threshold env fw fs p h, writeStage_setCompress]

/-- openFile commutes with replacing the compress flag. -/
theorem openFile_setCompress (env : Env) (fw : FileWriter) (fs : FSys)
    (name : String) (b : Bool) :
    FileWriter.openFile env (setCompress fw b) fs name =
      (setCompress (FileWriter.openFile env fw fs name).1 b,
       (FileWriter.openFile env fw fs name).2.1,
       (FileWriter.openFile env fw fs name).2.2) := by
  unfold FileWriter.openFile setCompress
  by_cases ho : env.openOk <;> simp [ho]

/-- Open commutes with replacing the compress flag. -/
theorem Open_setCompress (env : Env) (fw : FileWriter) (fs : FSys)
    (name : String) (b : Bool) :
    FileWriter.Open env (setCompress fw b) fs name =
      (setCompress (FileWriter.Open env fw fs name).1 b,
       (FileWriter.Open env fw fs name).2.1,
       (FileWriter.Open env fw fs name).2.2) := by
  unfold FileWriter.Open
  rw [openFile_setCompress]
  rcases hO : FileWriter.openFile env fw fs name with ⟨fwO, fsO, eO⟩
  dsimp only
  cases eO with
  | some e => simp
  | none => simp [setCompress]

/-- Close commutes with replacing the compress flag. -/
theorem Close_setCompress (env : Env) (fw : FileWriter) (fs : FSys)
    (b : Bool) :
    FileWriter.Close env (setCompress fw b) fs =
      (setCompress (FileWriter.Close env fw fs).1 b,
       (FileWriter.Close env fw fs).2.1,
       (FileWriter.Close env fw fs).2.2) := by
  unfold FileWriter.Close
  by_cases hgt : fw.maxSize < (fw.size + fw.buf.length) % uintMod
  · simp only [show (setCompress fw b).maxSize = fw.maxSize from rfl,
      show (setCompress fw b).size = fw.size from rfl,
      show (setCompress fw b).buf = fw.buf from rfl, hgt, if_true]
    rw [rotateFile_setCompress]
    rcases hR : FileWriter.rotateFile env fw fs with ⟨fwR, fsR, eR⟩
    dsimp only
    cases eR with
    | some e => simp [setCompress]
    | none =>
      dsimp only
      rw [flushBuf_setCompress]
      rcases hF : FileWriter.flushBuf env fwR fsR with ⟨fwF, fsF, eF⟩
      dsimp only
      simp [setCompress]
  · simp only [show (setCompress fw b).maxSize = fw.maxSize from rfl,
      show (setCompress fw b).size = fw.size from rfl,
      show (setCompress fw b).buf = fw.buf from rfl, hgt, if_false]
    rw [flushBuf_setCompress]
    rcases hF : FileWriter.flushBuf env fw fs with ⟨fwF, fsF, eF⟩
    dsimp only
    cases eF <;> simp [setCompress]

/-- One public operation commutes with replacing the compress flag. -/
theorem runOp_setCompress (op : Op) (fw : FileWriter) (fs : FSys)
    (b : Bool) :
    runOp op (setCompress fw b) fs =
      (setCompress (runOp op fw fs).1 b,
       (runOp op fw fs).2.1, (runOp op fw fs).2.2) := by
  cases op with
  | writeOp env p => simp [runOp, Write_setCompress]
  | openOp env name => simp [runOp, Open_setCompress]
  | closeOp env => simp [runOp, Close_setCompress]

/-- A whole run of public operations commutes with replacing the
compress flag. -/
theorem runOps_setCompress (ops : List Op) (fw : FileWriter) (fs : FSys)
    (b : Bool) :
    runOps ops (setCompress fw b) fs =
      (setCompress (runOps ops fw fs).1 b,
       (runOps ops fw fs).2.1, (runOps ops fw fs).2.2) := by
  induction ops generalizing fw fs with
  | nil => simp [runOps]
  | cons op rest ih =>
    simp only [runOps]
    rw [runOp_setCompress]
    simp only []
    rw [ih]

/-- C3 amended: Close decides the final rotation by comparing
fw.size + buffered bytes against maxSize with strict greater-than; since
fw.size already counts the buffered bytes (the documented meaning of the
size field), the buffered bytes are counted twice, and Close rotates
exactly when fw.size + buffered > maxSize — which can hold even when
on-disk + buffered is at most maxSize. -/
theorem C3_amended_close_rotation_iff (env : Env) (fw : FileWriter)
    (fs : FSys) (c : List Nat)
    (hren : env.renameOk = true) (hopen : env.openOk = true)
    (hfile : fsLookup fs fw.fileName = some c)
    (hnb : fsLookup fs (backupNameOf fw.fileName env.formattedNow) = none)
    (hW : fw.size + fw.buf.length < uintMod) :
    (fsLookup (FileWriter.Close env fw fs).2.1
        (backupNameOf fw.fileName env.formattedNow)).isSome
      ↔ fw.maxSize < fw.size + fw.buf.length := by
  have hmod : (fw.size + fw.buf.length) % uintMod = fw.size + fw.buf.length :=
    Nat.mod_eq_of_lt hW
  have hbk : backupNameOf fw.fileName env.formattedNow ≠ fw.fileName :=
    backupNameOf_ne _ _
  by_cases hgt : fw.maxSize < fw.size + fw.buf.length
  · have hrot := rotateFile_success env fw fs c hfile hren hopen
    rw [Close_rotating env fw fs (by rw [hmod]; exact hgt) _ _ hrot]
    dsimp only
    rw [flushBuf_fsLookup_ne env
      { fw with
          fileOpen := true,
          size := fw.buf.length % uintMod,
          bufViaCounter := true }
      (fsSet (fsSet (fsErase fs fw.fileName)
        (backupNameOf fw.fileName env.formattedNow) c) fw.fileName [])
      (backupNameOf fw.fileName env.formattedNow) hbk]
    rw [fsLookup_fsSet_ne _ _ _ _ hbk, fsLookup_fsSet_self]
    simp [hgt]
  · rw [Close_not_rotating env fw fs (by rw [hmod]; exact hgt)]
    dsimp only
    rw [flushBuf_fsLookup_ne _ _ _ _ hbk, hnb]
    simp [hgt]

/-- C3 witness for the amended claim: with on-disk 3 + staged 1 and
size = 4 below maxSize = 5 even doubled only on the staged byte
(4 + 1 = 5, not above 5), Close does not rotate and no backup appears. -/
theorem C3_amended_close_rotation_iff_witness :
    (fsLookup (FileWriter.Close envW3 fwW3 fsW3).2.1
        (backupNameOf "w3.log" "w3")).isSome
      ↔ fwW3.maxSize < fwW3.size + fwW3.buf.length :=
  C3_amended_close_rotation_iff envW3 fwW3 fsW3 [7, 7, 7] rfl rfl rfl rfl
    (by decide)

/-- C4: CONFIRMED.  A successful rotation reports no error, renames the
active file to its name extended with "." and the formatted current time
(the backup holds exactly the old on-disk bytes), opens a fresh empty
file at the original path, touches no other file (in particular no flush
of staged bytes happens), leaves the staged buffer bytes exactly as they
were, and sets size to the count of staged bytes. -/
theorem C4_rotate_renames_and_keeps_buffer (env : Env) (fw : FileWriter)
    (fs : FSys) (c : List Nat)
    (hren : env.renameOk = true) (hopen : env.openOk = true)
    (hfile : fsLookup fs fw.fileName = some c)
    (hlen : fw.buf.length < uintMod) :
    (FileWriter.rotateFile env fw fs).2.2 = none ∧
    (FileWriter.rotateFile env fw fs).1.buf = fw.buf ∧
    (FileWriter.rotateFile env fw fs).1.size = fw.buf.length ∧
    (FileWriter.rotateFile env fw fs).1.fileOpen = true ∧
    fsLookup (FileWriter.rotateFile env fw fs).2.1
      (backupNameOf fw.fileName env.formattedNow) = some c ∧
    fsLookup (FileWriter.rotateFile env fw fs).2.1 fw.fileName = some [] ∧
    ∀ m, m ≠ fw.fileName → m ≠ backupNameOf fw.fileName env.formattedNow →
      fsLookup (FileWriter.rotateFile env fw fs).2.1 m = fsLookup fs m := by
  have hbk := backupNameOf_ne fw.fileName env.formattedNow
  rw [rotateFile_success env fw fs c hfile hren hopen]
  refine ⟨rfl, rfl, ?_, rfl, ?_, ?_, ?_⟩
  · exact Nat.mod_eq_of_lt hlen
  · dsimp only
    rw [fsLookup_fsSet_ne _ _ _ _ hbk, fsLookup_fsSet_self]
  · dsimp only
    rw [fsLookup_fsSet_self]
  · intro m hm hmb
    dsimp only
    rw [fsLookup_fsSet_ne _ _ _ _ hm, fsLookup_fsSet_ne _ _ _ _ hmb,
      fsLookup_fsErase_ne _ _ _ hm]

/-- C4 witness at a concrete rotation. -/
theorem C4_rotate_renames_and_keeps_buffer_witness :
    (FileWriter.rotateFile envW4 fwW4 fsW4).2.2 = none ∧
    (FileWriter.rotateFile envW4 fwW4 fsW4).1.buf = fwW4.buf ∧
    (FileWriter.rotateFile envW4 fwW4 fsW4).1.size = fwW4.buf.length ∧
    fsLookup (FileWriter.rotateFile envW4 fwW4 fsW4).2.1
      (backupNameOf "w4.log" "w4") = some [5, 6] ∧
    fsLookup (FileWriter.rotateFile envW4 fwW4 fsW4).2.1 "w4.log"
      = some [] := by
  have h := C4_rotate_renames_and_keeps_buffer envW4 fwW4 fsW4 [5, 6]
    rfl rfl rfl (by decide)
  exact ⟨h.1, h.2.1, h.2.2.1, h.2.2.2.2.1, h.2.2.2.2.2.1⟩

/-- C5 amended: when a Write triggers the rotation path
(size + len(p) reaches maxSize) and that path fails, Write returns 0
accepted bytes with the failing stage error and the payload is never
staged; on a rename failure the writer state changes only by the reset
batch counter and the closed handle (the buffer is untouched and the
filesystem unchanged), while on a flush failure after a successful
rotation the bytes the sink accepted have left the buffer — the buffer
keeps exactly the undelivered suffix, so its content is not in general
unchanged. -/
theorem C5_amended_write_abort (env : Env) (fw : FileWriter) (fs : FSys)
    (p c : List Nat)
    (hover : fw.maxSize ≤ (fw.size + p.length) % uintMod)
    (hfile : fsLookup fs fw.fileName = some c) :
    (env.renameOk = false →
      FileWriter.Write env fw fs p =
        ({ fw with batchSize := 0, fileOpen := false }, fs, 0,
         some .renameFailed)) ∧
    (∀ k, env.renameOk = true → env.openOk = true →
      env.flushOutcome = .fail k → fw.buf ≠ [] →
      (FileWriter.Write env fw fs p).2.2.1 = 0 ∧
      (FileWriter.Write env fw fs p).2.2.2 = some .flushFailed ∧
      (FileWriter.Write env fw fs p).1.buf
        = fw.buf.drop (min k fw.buf.length)) := by
  constructor
  · intro hren
    rw [Write_over_threshold env fw fs p hover,
      rotateFile_renameFail env { fw with batchSize := 0 } fs c hfile hren]
  · intro k hren hopen hfl hbuf
    rw [Write_over_threshold env fw fs p hover,
      rotateFile_success env { fw with batchSize := 0 } fs c hfile hren hopen]
    dsimp only
    have hfb := flushBuf_fail env
      { fw with
          batchSize := 0,
          fileOpen := true,
          size := fw.buf.length % uintMod,
          bufViaCounter := true }
      (fsSet (fsSet (fsErase fs fw.fileName)
        (backupNameOf fw.fileName env.formattedNow) c) fw.fileName [])
      k hfl hbuf
    rcases hF : FileWriter.flushBuf env
      { fw with
          batchSize := 0,
          fileOpen := true,
          size := fw.buf.length % uintMod,
          bufViaCounter := true }
      (fsSet (fsSet (fsErase fs fw.fileName)
        (backupNameOf fw.fileName env.formattedNow) c) fw.fileName [])
      with ⟨fwF, fsF, eF⟩
    rw [hF] at hfb
    rcases hfb with ⟨he, hbuf2, hbatch2⟩
    dsimp only at he hbuf2
    rw [he]
    dsimp only
    exact ⟨rfl, rfl, hbuf2⟩

/-- C5 witness for the amended claim: total flush failure (0 bytes
accepted) after a successful rotation aborts the write with the flush
error and leaves the whole buffer staged. -/
theorem C5_amended_write_abort_witness :
    (FileWriter.Write envW5 fwW5 fsW5 [1]).2.2.1 = 0 ∧
    (FileWriter.Write envW5 fwW5 fsW5 [1]).2.2.2 = some .flushFailed ∧
    (FileWriter.Write envW5 fwW5 fsW5 [1]).1.buf
      = fwW5.buf.drop (min 0 fwW5.buf.length) := by
  have h := C5_amended_write_abort envW5 fwW5 fsW5 [1] [] (by decide) rfl
  exact h.2 0 rfl rfl rfl (by decide)

/-- C7: CONFIRMED.  With maxBatchSize = N (= qs.length + 1), starting
from a zero batch counter and staying strictly below maxSize, the first
N - 1 successful writes only stage (batchSize counts up, the buffer
accumulates, the filesystem is untouched); the N-th write triggers the
batch flush: with a succeeding sink the buffer is emptied and batchSize
resets to 0 with every payload accepted error-free, and with a failing
sink the flush error is returned to the caller of the N-th write while
its payload length is still reported as accepted (and batchSize still
resets to 0). -/
theorem C7_batch_flush_at_threshold (envA envB : Env) (fw : FileWriter)
    (fs : FSys) (qs : List (List Nat)) (q : List Nat) (k : Nat)
    (hb0 : fw.batchSize = 0)
    (hN : qs.length + 1 = fw.maxBatchSize)
    (hsize : fw.size + totalLen qs + q.length < fw.maxSize)
    (hmax : fw.maxSize < uintMod)
    (hA : envA.flushOutcome = .ok)
    (hB : envB.flushOutcome = .fail k)
    (hq : q ≠ []) :
    (runWrites envA qs fw fs).1.batchSize = qs.length ∧
    (runWrites envA qs fw fs).1.buf = fw.buf ++ qs.flatten ∧
    (runWrites envA qs fw fs).2.1 = fs ∧
    (runWrites envA (qs ++ [q]) fw fs).1.batchSize = 0 ∧
    (runWrites envA (qs ++ [q]) fw fs).1.buf = [] ∧
    (runWrites envA (qs ++ [q]) fw fs).2.2
      = (qs ++ [q]).map (fun p => (p.length, none)) ∧
    (runWrites envB (qs ++ [q]) fw fs).1.batchSize = 0 ∧
    (runWrites envB (qs ++ [q]) fw fs).2.2
      = qs.map (fun p => (p.length, none)) ++ [(q.length, some .flushFailed)]
      := by
  have hqs : ∀ env : Env, runWrites env qs fw fs =
      ({ fw with
          buf := fw.buf ++ qs.flatten,
          size := fw.size + totalLen qs,
          batchSize := fw.batchSize + qs.length },
       fs, qs.map fun p => (p.length, none)) := by
    intro env
    exact runWrites_small env qs fw fs (by omega) hmax (by omega)
  have hstep : ∀ env : Env,
      runWrites env (qs ++ [q]) fw fs =
        ((FileWriter.Write env
            { fw with
                buf := fw.buf ++ qs.flatten,
                size := fw.size + totalLen qs,
                batchSize := fw.batchSize + qs.length } fs q).1,
         (FileWriter.Write env
            { fw with
                buf := fw.buf ++ qs.flatten,
                size := fw.size + totalLen qs,
                batchSize := fw.batchSize + qs.length } fs q).2.1,
         (qs.map fun p => (p.length, none))
           ++ [((FileWriter.Write env
                  { fw with
                      buf := fw.buf ++ qs.flatten,
                      size := fw.size + totalLen qs,
                      batchSize := fw.batchSize + qs.length } fs q).2.2.1,
                (FileWriter.Write env
                  { fw with
                      buf := fw.buf ++ qs.flatten,
                      size := fw.size + totalLen qs,
                      batchSize := fw.batchSize + qs.length } fs q).2.2.2)])
        := by
    intro env
    rw [runWrites_append env qs [q] fw fs, hqs env]
    dsimp only
    simp [runWrites]
  have hlt : fw.size + totalLen qs + q.length < uintMod := by omega
  have hmodq :
      (fw.size + totalLen qs + q.length) % uintMod
        = fw.size + totalLen qs + q.length :=
    Nat.mod_eq_of_lt hlt
  have hnorot :
      ¬ fw.maxSize ≤ (fw.size + totalLen qs + q.length) % uintMod := by
    rw [hmodq]
    omega
  have hcond : fw.maxBatchSize ≤ fw.batchSize + qs.length + 1 := by omega
  have hwrite : ∀ env : Env,
      FileWriter.Write env
        { fw with
            buf := fw.buf ++ qs.flatten,
            size := fw.size + totalLen qs,
            batchSize := fw.batchSize + qs.length } fs q
        = ((FileWriter.flushBuf env
              { fw with
                  buf := (fw.buf ++ qs.flatten) ++ q,
                  size := (fw.size + totalLen qs + q.length) % uintMod,
                  batchSize := 0 } fs).1,
           (FileWriter.flushBuf env
              { fw with
                  buf := (fw.buf ++ qs.flatten) ++ q,
                  size := (fw.size + totalLen qs + q.length) % uintMod,
                  batchSize := 0 } fs).2.1,
           q.length,
           (FileWriter.flushBuf env
              { fw with
                  buf := (fw.buf ++ qs.flatten) ++ q,
                  size := (fw.size + totalLen qs + q.length) % uintMod,
                  batchSize := 0 } fs).2.2) := by
    intro env
    rw [Write_under_threshold env _ fs q hnorot]
    unfold FileWriter.writeStage
    dsimp only
    simp only [hcond, if_true]
  have hne : ((fw.buf ++ qs.flatten) ++ q) ≠ [] := by
    intro hnil
    exact hq (List.append_eq_nil.mp hnil).2
  have hfb := flushBuf_fail envB
    { fw with
        buf := (fw.buf ++ qs.flatten) ++ q,
        size := (fw.size + totalLen qs + q.length) % uintMod,
        batchSize := 0 } fs k hB hne
  refine ⟨?_, ?_, ?_, ?_, ?_, ?_, ?_, ?_⟩
  · rw [hqs envA, hb0]
    simp
  · rw [hqs envA]
  · rw [hqs envA]
  · rw [hstep envA]
    dsimp only
    rw [hwrite envA]
    dsimp only
    rw [flushBuf_ok envA _ _ hA]
  · rw [hstep envA]
    dsimp only
    rw [hwrite envA]
    dsimp only
    rw [flushBuf_ok envA _ _ hA]
  · rw [hstep envA]
    dsimp only
    rw [hwrite envA]
    dsimp only
    rw [flushBuf_ok envA _ _ hA]
    simp
  · rw [hstep envB]
    dsimp only
    rw [hwrite envB]
    dsimp only
    rw [hfb.2.2]
  · rw [hstep envB]
    dsimp only
    rw [hwrite envB]
    dsimp only
    rw [hfb.1]

/-- C7 witness: maxBatchSize 2, payloads [1] then [2, 3]; the second
write flushes and resets the batch counter; with a sink that accepts 0
bytes and errors, the second write reports (2, flush error). -/
theorem C7_batch_flush_at_threshold_witness :
    (runWrites envOkT1 [[1], [2, 3]] fwW7 fsW7).1.batchSize = 0 ∧
    (runWrites envOkT1 [[1], [2, 3]] fwW7 fsW7).1.buf = [] ∧
    (runWrites envFail0 [[1], [2, 3]] fwW7 fsW7).2.2
      = [(1, none), (2, some .flushFailed)] := by
  have h := C7_batch_flush_at_threshold envOkT1 envFail0 fwW7 fsW7
    [[1]] [2, 3] 0 rfl rfl (by decide) (by decide) rfl rfl (by decide)
  exact ⟨h.2.2.2.1, h.2.2.2.2.1, h.2.2.2.2.2.2.2⟩

/-- C8: CONFIRMED.  Close always leaves the file handle closed; its
return value is exactly the rotation error when the final rotation was
attempted (fw.size + buffered above maxSize) and nil otherwise; in
particular a flush error is never returned by Close (the final
best-effort flush error is discarded). -/
theorem C8_close_error_policy (env : Env) (fw : FileWriter) (fs : FSys) :
    (FileWriter.Close env fw fs).1.fileOpen = false ∧
    (FileWriter.Close env fw fs).2.2 =
      (if fw.maxSize < (fw.size + fw.buf.length) % uintMod
       then (FileWriter.rotateFile env fw fs).2.2
       else none) ∧
    (FileWriter.Close env fw fs).2.2 ≠ some .flushFailed := by
  have h2 : (FileWriter.Close env fw fs).2.2 =
      (if fw.maxSize < (fw.size + fw.buf.length) % uintMod
       then (FileWriter.rotateFile env fw fs).2.2
       else none) := by
    unfold FileWriter.Close
    by_cases hgt : fw.maxSize < (fw.size + fw.buf.length) % uintMod
    · rcases hr : FileWriter.rotateFile env fw fs with ⟨fwR, fsR, e⟩
      cases e <;> simp [hgt, hr]
    · simp [hgt]
  refine ⟨rfl, h2, ?_⟩
  rw [h2]
  by_cases hgt : fw.maxSize < (fw.size + fw.buf.length) % uintMod
  · simpa [hgt] using rotateFile_no_flush_error env fw fs
  · simp [hgt]

/-- C10: CONFIRMED.  The compress option only sets the compress field and
nothing in the package ever reads it: two writers differing only in the
compress configuration produce, over any sequence of public operations
and any environment behaviour, the same filesystem (the same rotation
renames and the same file contents — in particular rotation never
deletes or compresses the retired file under either setting), the same
returned (accepted, error) outputs, and final states that again differ
only in the compress field. -/
theorem C10_compress_noninterference (ops : List Op) (fw : FileWriter)
    (fs : FSys) (b1 b2 : Bool) :
    (runOps ops ( FileWriter.WithFileWriterCompress b1 fw) fs).2.1
      = (runOps ops ( FileWriter.WithFileWriterCompress b2 fw) fs).2.1 ∧
    (runOps ops ( FileWriter.WithFileWriterCompress b1 fw) fs).2.2
      = (runOps ops ( FileWriter.WithFileWriterCompress b2 fw) fs).2.2 ∧
    (runOps ops ( FileWriter.WithFileWriterCompress b1 fw) fs).1
      = FileWriter.WithFileWriterCompress b1
          ((runOps ops ( FileWriter.WithFileWriterCompress b2 fw) fs).1) := by
  rw [show FileWriter.WithFileWriterCompress b1 fw = setCompress fw b1
      from rfl,
    show FileWriter.WithFileWriterCompress b2 fw = setCompress fw b2
      from rfl,
    runOps_setCompress, runOps_setCompress]
  exact ⟨rfl, rfl, rfl⟩
